import Mathlib

/-!
Verification of the Forte ontology core (`forte/data/ontology/core.py`):
the `Span` value type, the `Entry` identity/attachment contract, the
`BaseLink` and `BaseGroup` entry kinds, and their interaction with the
`EntryContainer` collaborator.

Python classes are embedded as Lean structures; Python exceptions as an
explicit error type threaded through `Except` (or an `Option` error paired
with the mutated state, when the source mutates before raising); Python
`set` as `Finset`; Python unbounded `int` as `Int`; Python class identity
(`type(self)`) as the fully-qualified kind name string.
-/

/-- Errors raised by the core, mirroring the Python exceptions:
`ValidationError` (container rejects an entry at construction),
`AttributeError` (`set_fields` with an unknown field name),
`TypeError` (group member type mismatch, carrying the group kind, the
expected member kind and the actual kind, as the f-string message does),
`ValueError` (`get_members` on a detached group), and a lookup failure
(a stored identifier that does not resolve through the container). -/
inductive CoreError where
  | validationError : CoreError
  | attributeError (className fieldName : String) : CoreError
  | typeError (selfKind expected actual : String) : CoreError
  | valueError : CoreError
  | lookupError (tid : String) : CoreError
deriving DecidableEq, Repr

/-- `Span.__init__`: a span records `begin` and `end` positions
(Python unbounded ints). -/
structure Span where
  begin_ : Int
  end_ : Int
deriving DecidableEq, Repr

namespace Span

/-- `Span.__lt__`: order by `begin` first, `end` second. -/
def lt (self other : Span) : Bool :=
  if self.begin_ = other.begin_ then
    self.end_ < other.end_
  else
    self.begin_ < other.begin_

/-- `Span.__eq__`: tuple equality of `(begin, end)`. -/
def eqb (self other : Span) : Bool :=
  (self.begin_, self.end_) = (other.begin_, other.end_)

end Span

/-- A resolved entry value, as seen through equality and container
resolution: its concrete kind (`type(self)`, identified by the
fully-qualified class name) and its assigned `tid`. -/
structure EntryV where
  kind : String
  tid : String
deriving DecidableEq, Repr

/-- The container collaborator (`EntryContainer`): `validate` accepts or
rejects an entry kind at construction time (`false` models a raised
`ValidationError`), and `get_entry` resolves an identifier to an entry
(`none` models a raised lookup failure). -/
structure EntryContainer where
  validate : String → Bool
  getEntry : String → Option EntryV

namespace EntryV

/-- `Entry.__eq__`: `False` on `None`, otherwise compare the tuples
`(type(self), self._tid)` and `(type(other), other.tid)`. -/
def eq (self : EntryV) : Option EntryV → Bool
  | none => false
  | some other => self.kind = other.kind ∧ self.tid = other.tid

/-- `Entry.__hash__` hashes the tuple `(type(self), self._tid)`; this is
the key that hashing is computed over. -/
def hashKey (self : EntryV) : String × String :=
  (self.kind, self.tid)

end EntryV

/-- The mutable state of an `Entry`: its concrete kind (fully-qualified
class name, which is also what `get_full_module_name(self)` returns), the
optional `_tid` (unset until `set_tid`), the optional `__component`, the
entry's attribute map (for `hasattr`/`setattr` in `set_fields`), the
`__modified_fields` set, and the `__pack` back-reference. -/
structure EntryState where
  kind : String
  tid : Option String
  component : Option String
  fields : List (String × String)
  modifiedFields : Finset String
  pack : Option EntryContainer

namespace EntryState

/-- `Entry.__init__(pack)`: records the pack back-reference and invokes
`pack.validate(self)`; a validation failure aborts construction. -/
def init (pack : EntryContainer) (kind : String) : Except CoreError EntryState :=
  if pack.validate kind then
    .ok { kind := kind, tid := none, component := none, fields := [],
          modifiedFields := ∅, pack := some pack }
  else
    .error .validationError

/-- `Entry.set_tid(tid)`: stores
`f"{get_full_module_name(self)}.{tid}"`. -/
def set_tid (self : EntryState) (tid : String) : EntryState :=
  { self with tid := some (self.kind ++ "." ++ tid) }

/-- Python `hasattr(self, field_name)` over the entry's attribute map. -/
def hasattr (self : EntryState) (name : String) : Bool :=
  (self.fields.lookup name).isSome

/-- Python `setattr(self, field_name, field_value)`: update the attribute
map at `name`. -/
def setattr (self : EntryState) (name value : String) : EntryState :=
  { self with fields := (name, value) :: self.fields.filter (fun p => p.1 ≠ name) }

/-- `Entry.set_fields(**kwargs)`: for each `(name, value)` pair in order,
raise `AttributeError` if the entry has no such attribute, otherwise set
it and add the name to `__modified_fields`. The state mutated so far is
kept when a later pair raises, as in Python. -/
def set_fields (self : EntryState) :
    List (String × String) → EntryState × Option CoreError
  | [] => (self, none)
  | (name, value) :: rest =>
    if self.hasattr name then
      set_fields { (self.setattr name value) with
                   modifiedFields := insert name self.modifiedFields } rest
    else
      (self, some (.attributeError self.kind name))

end EntryState

/-- The state of a `BaseLink`: its concrete kind, the container passed at
construction, and the stored endpoint identifiers (optional, as the
constructor's `parent`/`child` arguments are). The concrete identifier
storage comes from `set_parent`/`set_child`, which store the endpoint's
pack-specific index key (its `tid`). -/
structure LinkState where
  kind : String
  pack : EntryContainer
  parentId : Option String
  childId : Option String

namespace LinkState

/-- Modelled from the spec: `BaseLink.get_parent` is abstract in the core
(the concrete identifier-storage and resolution strategy lives in the
subclasses, outside this excerpt); per the spec's Link contract, the
stored identifier is resolved via the container's `get_entry`, and a
stored identifier that does not resolve in the current container fails
with a resolution error. -/
def get_parent (self : LinkState) : Except CoreError EntryV :=
  match self.parentId with
  | none => .error (.lookupError "")
  | some pid =>
    match self.pack.getEntry pid with
    | some e => .ok e
    | none => .error (.lookupError pid)

/-- Modelled from the spec: `BaseLink.get_child` is abstract in the core;
per the spec's Link contract, the stored identifier is resolved via the
container's `get_entry`, failing with a resolution error when it does
not resolve. -/
def get_child (self : LinkState) : Except CoreError EntryV :=
  match self.childId with
  | none => .error (.lookupError "")
  | some cid =>
    match self.pack.getEntry cid with
    | some e => .ok e
    | none => .error (.lookupError cid)

/-- `BaseLink.__eq__`: `False` on `None`; otherwise build the tuples
`(type(self), self.get_parent(), self.get_child())` and
`(type(other), other.get_parent(), other.get_child())` (each getter may
raise, and the raise propagates) and compare them, the entry components
being compared with `Entry.__eq__`. -/
def eq (self : LinkState) : Option LinkState → Except CoreError Bool
  | none => .ok false
  | some other =>
    match self.get_parent with
    | .error e => .error e
    | .ok sp =>
      match self.get_child with
      | .error e => .error e
      | .ok sc =>
        match other.get_parent with
        | .error e => .error e
        | .ok op =>
          match other.get_child with
          | .error e => .error e
          | .ok oc =>
            .ok (self.kind = other.kind ∧ sp.eq (some op) ∧ sc.eq (some oc))

/-- `BaseLink.__hash__` hashes
`(type(self), self.get_parent(), self.get_child())`: the key is the kind
together with the two resolved endpoints (and hashing raises when a
getter raises). -/
def hashKey (self : LinkState) : Except CoreError (String × EntryV × EntryV) :=
  match self.get_parent with
  | .error e => .error e
  | .ok p =>
    match self.get_child with
    | .error e => .error e
    | .ok c => .ok (self.kind, p, c)

end LinkState

/-- The state of a `BaseGroup`: its concrete kind, the class-level
`member_type` constraint (identified by kind name), the `_members` set of
member `tid`s, and the pack back-reference (`None` models a detached
group, which `get_members` checks for). -/
structure GroupState where
  kind : String
  memberType : String
  members : Finset String
  pack : Option EntryContainer

namespace GroupState

/-- `BaseGroup.add_members(members)`: for each member in order, raise
`TypeError` if it is not an instance of `self.member_type`, otherwise add
its `tid` to `_members`. `inst actual expected` embeds Python
`isinstance` over the class hierarchy (actual kind, expected kind).
Members added before a raise are kept, as in Python. -/
def add_members (inst : String → String → Bool) (self : GroupState) :
    List EntryV → GroupState × Option CoreError
  | [] => (self, none)
  | m :: rest =>
    if inst m.kind self.memberType then
      add_members inst { self with members := insert m.tid self.members } rest
    else
      (self, some (.typeError self.kind self.memberType m.kind))

/-- `BaseGroup.add_member(member)`: delegates to `add_members([member])`. -/
def add_member (inst : String → String → Bool) (self : GroupState)
    (member : EntryV) : GroupState × Option CoreError :=
  self.add_members inst [member]

/-- Resolve a list of member identifiers through `get_entry`, failing on
the first identifier the container does not know. -/
def resolveAll (c : EntryContainer) : List String → Except CoreError (List EntryV)
  | [] => .ok []
  | m :: rest =>
    match c.getEntry m with
    | none => .error (.lookupError m)
    | some e => (resolveAll c rest).map (e :: ·)

/-- `BaseGroup.get_members()`: raise `ValueError` if `self.pack is None`,
otherwise resolve every stored member identifier through
`self.pack.get_entry` and collect the results into a set (the set is
enumerated in sorted order, a fixed enumeration of Python's
unspecified set iteration order). -/
def get_members (self : GroupState) : Except CoreError (Finset EntryV) :=
  match self.pack with
  | none => .error .valueError
  | some c => (resolveAll c (self.members.sort (· ≤ ·))).map List.toFinset

/-- `BaseGroup.__eq__`: `False` on `None`, otherwise compare
`(type(self), self.members)` with `(type(other), other.members)`. -/
def eq (self : GroupState) : Option GroupState → Bool
  | none => false
  | some other => self.kind = other.kind ∧ self.members = other.members

end GroupState

/-- Fixture container: resolves identifier `"p"` to entry `pa` and `"c"`
to entry `ca`. -/
def packA : EntryContainer :=
  ⟨fun _ => true, fun t =>
    if t = "p" then some ⟨"pkg.Tok", "pa"⟩
    else if t = "c" then some ⟨"pkg.Tok", "ca"⟩
    else none⟩

/-- Fixture container: like `packA` but resolves `"p"` to a different
entry `pb`. -/
def packB : EntryContainer :=
  ⟨fun _ => true, fun t =>
    if t = "p" then some ⟨"pkg.Tok", "pb"⟩
    else if t = "c" then some ⟨"pkg.Tok", "ca"⟩
    else none⟩

/-- Fixture container: distinct identifiers resolve to equal entries
(`"p1"` and `"p2"` to `x`; `"c1"` and `"c2"` to `y`). -/
def packC : EntryContainer :=
  ⟨fun _ => true, fun t =>
    if t = "p1" then some ⟨"pkg.Tok", "x"⟩
    else if t = "p2" then some ⟨"pkg.Tok", "x"⟩
    else if t = "c1" then some ⟨"pkg.Tok", "y"⟩
    else if t = "c2" then some ⟨"pkg.Tok", "y"⟩
    else none⟩

/-- Fixture container: resolves the three identifiers `"t1"`, `"t2"`,
`"t3"` to three distinct entries of kind `pkg.Tok`. -/
def packT : EntryContainer :=
  ⟨fun _ => true, fun t =>
    if t = "t1" then some ⟨"pkg.Tok", "t1"⟩
    else if t = "t2" then some ⟨"pkg.Tok", "t2"⟩
    else if t = "t3" then some ⟨"pkg.Tok", "t3"⟩
    else none⟩

/- ## Helper lemmas -/

lemma span_lt_iff (a b : Span) :
    Span.lt a b = true ↔
      a.begin_ < b.begin_ ∨ (a.begin_ = b.begin_ ∧ a.end_ < b.end_) := by
  unfold Span.lt
  split_ifs with h <;> simp [h]

lemma span_eqb_iff (a b : Span) :
    Span.eqb a b = true ↔ a.begin_ = b.begin_ ∧ a.end_ = b.end_ := by
  unfold Span.eqb
  simp [Prod.ext_iff]

lemma append_sep_inj (a b r : String) (h : a ++ "." ++ r = b ++ "." ++ r) :
    a = b := by
  have hd : a.data ++ (".".data ++ r.data) = b.data ++ (".".data ++ r.data) := by
    have := congrArg String.data h
    simpa only [String.data_append, List.append_assoc] using this
  have hl : a.data.length = b.data.length := by
    have := congrArg List.length hd
    simp only [List.length_append] at this
    omega
  exact String.ext (List.append_inj hd hl).1

lemma entryV_eq_some_iff (a b : EntryV) : EntryV.eq a (some b) = true ↔ a = b := by
  cases a; cases b; simp [EntryV.eq]

lemma resolveAll_ok (c : EntryContainer) (ms : List String)
    (h : ∀ m ∈ ms, ∃ e, c.getEntry m = some e) :
    ∃ l, GroupState.resolveAll c ms = .ok l ∧
      ∀ e, e ∈ l ↔ ∃ m ∈ ms, c.getEntry m = some e := by
  induction ms with
  | nil => exact ⟨[], rfl, by simp⟩
  | cons m rest ih =>
    obtain ⟨e0, he0⟩ := h m (by simp)
    obtain ⟨l', hl', hmem⟩ := ih (fun m' hm' => h m' (by simp [hm']))
    refine ⟨e0 :: l',
      by simp only [GroupState.resolveAll, he0, hl']; rfl, ?_⟩
    intro e
    simp only [List.mem_cons, hmem]
    constructor
    · rintro (rfl | ⟨m', hm', hget⟩)
      · exact ⟨m, Or.inl rfl, he0⟩
      · exact ⟨m', Or.inr hm', hget⟩
    · rintro ⟨m', hm', hget⟩
      rcases hm' with rfl | hm''
      · exact Or.inl (Option.some.inj (hget.symm.trans he0))
      · exact Or.inr ⟨m', hm'', hget⟩

lemma get_members_ok (g : GroupState) (c : EntryContainer)
    (hp : g.pack = some c)
    (hres : ∀ m ∈ g.members, ∃ e, c.getEntry m = some e) :
    ∃ s, g.get_members = .ok s ∧
      ∀ e, e ∈ s ↔ ∃ m ∈ g.members, c.getEntry m = some e := by
  obtain ⟨l, hl, hmem⟩ :=
    resolveAll_ok c (g.members.sort (· ≤ ·))
      (fun m hm => hres m ((Finset.mem_sort _).1 hm))
  refine ⟨l.toFinset, ?_, ?_⟩
  · simp only [GroupState.get_members, hp, hl]
    rfl
  · intro e
    rw [List.mem_toFinset, hmem]
    simp only [Finset.mem_sort]

/- ## Claims -/

/-- C9: span comparison orders by `begin` first and `end` second
(`a.begin < b.begin` implies `a < b`; with equal `begin`s, `a < b` iff
`a.end < b.end`); span equality holds exactly on `(begin, end)` match and
is reflexive, symmetric and transitive; and `<` is irreflexive,
transitive and total against `==`, hence a total order. -/
theorem C9_span_total_order (a b c : Span) :
    (a.begin_ < b.begin_ → Span.lt a b = true) ∧
    (a.begin_ = b.begin_ → (Span.lt a b = true ↔ a.end_ < b.end_)) ∧
    (Span.eqb a b = true ↔ a.begin_ = b.begin_ ∧ a.end_ = b.end_) ∧
    Span.eqb a a = true ∧
    (Span.eqb a b = true → Span.eqb b a = true) ∧
    (Span.eqb a b = true → Span.eqb b c = true → Span.eqb a c = true) ∧
    Span.lt a a = false ∧
    (Span.lt a b = true → Span.lt b c = true → Span.lt a c = true) ∧
    (Span.lt a b = true ∨ Span.eqb a b = true ∨ Span.lt b a = true) := by
  refine ⟨?_, ?_, span_eqb_iff a b, ?_, ?_, ?_, ?_, ?_, ?_⟩
  · intro h; rw [span_lt_iff]; omega
  · intro h; rw [span_lt_iff]; omega
  · rw [span_eqb_iff]; omega
  · rw [span_eqb_iff, span_eqb_iff]; omega
  · rw [span_eqb_iff, span_eqb_iff, span_eqb_iff]; omega
  · cases h : Span.lt a a with
    | false => rfl
    | true => rw [span_lt_iff] at h; omega
  · rw [span_lt_iff, span_lt_iff, span_lt_iff]; omega
  · rw [span_lt_iff, span_eqb_iff, span_lt_iff]; omega

/-- C9 witness: the ordering and equality facts at concrete spans. -/
theorem C9_span_total_order_witness :
    Span.lt ⟨1, 9⟩ ⟨2, 0⟩ = true ∧
    (Span.lt ⟨3, 1⟩ ⟨3, 2⟩ = true ↔ (1 : Int) < 2) ∧
    Span.eqb ⟨4, 5⟩ ⟨4, 5⟩ = true :=
  ⟨(C9_span_total_order ⟨1, 9⟩ ⟨2, 0⟩ ⟨0, 0⟩).1 (by decide),
   (C9_span_total_order ⟨3, 1⟩ ⟨3, 2⟩ ⟨0, 0⟩).2.1 rfl,
   (C9_span_total_order ⟨4, 5⟩ ⟨0, 0⟩ ⟨0, 0⟩).2.2.2.1⟩

/-- C1: two entries of the same concrete kind are equal iff their tids are
equal; entries of different concrete kinds are never equal regardless of
other fields; and equality agrees exactly with the hash key, which is the
`(concrete kind, tid)` pair. -/
theorem C1_entry_eq_kind_tid (e1 e2 : EntryV) :
    (e1.kind = e2.kind → (EntryV.eq e1 (some e2) = true ↔ e1.tid = e2.tid)) ∧
    (e1.kind ≠ e2.kind → EntryV.eq e1 (some e2) = false) ∧
    (EntryV.eq e1 (some e2) = true ↔ EntryV.hashKey e1 = EntryV.hashKey e2) := by
  simp [EntryV.eq, EntryV.hashKey, Prod.ext_iff]
  tauto

/-- C1 witness: equality and inequality of concrete entries. -/
theorem C1_entry_eq_kind_tid_witness :
    EntryV.eq ⟨"pkg.Token", "pkg.Token.1"⟩ (some ⟨"pkg.Token", "pkg.Token.1"⟩) = true ∧
    EntryV.eq ⟨"pkg.Token", "pkg.Token.1"⟩ (some ⟨"pkg.Sent", "pkg.Token.1"⟩) = false :=
  ⟨((C1_entry_eq_kind_tid ⟨"pkg.Token", "pkg.Token.1"⟩
      ⟨"pkg.Token", "pkg.Token.1"⟩).1 rfl).mpr rfl,
   (C1_entry_eq_kind_tid ⟨"pkg.Token", "pkg.Token.1"⟩
      ⟨"pkg.Sent", "pkg.Token.1"⟩).2.1 (by decide)⟩

/-- C10: comparing an `Entry`, a `BaseLink` or a `BaseGroup` against
`None` returns `False`: it neither raises (the link case returns an `ok`
result even when endpoint resolution would fail) nor reads the other
operand. -/
theorem C10_eq_none_is_false (e : EntryV) (l : LinkState) (g : GroupState) :
    EntryV.eq e none = false ∧
    LinkState.eq l none = .ok false ∧
    GroupState.eq g none = false :=
  ⟨rfl, rfl, rfl⟩

/-- C3: after `set_tid raw`, the entry's tid is its fully-qualified kind
name, a separator, and the raw id; hence the kind name is a prefix of the
tid, and two entries of different kinds given the same raw id get
distinct tids. -/
theorem C3_set_tid_qualified (e e1 e2 : EntryState) (raw : String) :
    (e.set_tid raw).tid = some (e.kind ++ "." ++ raw) ∧
    (∃ rest, (e.set_tid raw).tid = some (e.kind ++ rest)) ∧
    (e1.kind ≠ e2.kind → (e1.set_tid raw).tid ≠ (e2.set_tid raw).tid) := by
  refine ⟨rfl, ⟨"." ++ raw, ?_⟩, ?_⟩
  · show some (e.kind ++ "." ++ raw) = some (e.kind ++ ("." ++ raw))
    rw [String.append_assoc]
  · intro hk h
    simp only [EntryState.set_tid, Option.some.injEq] at h
    exact hk (append_sep_inj _ _ _ h)

/-- C3 witness: concrete entries of two kinds given the same raw id. -/
theorem C3_set_tid_qualified_witness :
    (EntryState.set_tid
        { kind := "pkg.Token", tid := none, component := none, fields := [],
          modifiedFields := ∅, pack := none } "1").tid = some "pkg.Token.1" ∧
    (EntryState.set_tid
        { kind := "pkg.Token", tid := none, component := none, fields := [],
          modifiedFields := ∅, pack := none } "1").tid ≠
      (EntryState.set_tid
        { kind := "pkg.Sent", tid := none, component := none, fields := [],
          modifiedFields := ∅, pack := none } "1").tid :=
  ⟨(C3_set_tid_qualified
      { kind := "pkg.Token", tid := none, component := none, fields := [],
        modifiedFields := ∅, pack := none }
      { kind := "pkg.Token", tid := none, component := none, fields := [],
        modifiedFields := ∅, pack := none }
      { kind := "pkg.Token", tid := none, component := none, fields := [],
        modifiedFields := ∅, pack := none } "1").1,
   (C3_set_tid_qualified
      { kind := "pkg.Token", tid := none, component := none, fields := [],
        modifiedFields := ∅, pack := none }
      { kind := "pkg.Token", tid := none, component := none, fields := [],
        modifiedFields := ∅, pack := none }
      { kind := "pkg.Sent", tid := none, component := none, fields := [],
        modifiedFields := ∅, pack := none } "1").2.2 (by decide)⟩

/-- C4: `set_fields` rejects a pair whose name is not an existing field
with the field error (naming the class and the field) and stops there;
a pair with a known name sets the field and records it in
`modified_fields`, processing continuing pair by pair — so, as the closed
example shows, earlier pairs of the same call are already applied (field
set and recorded) when a later pair is rejected, while names at or after
the rejected pair are left untouched. -/
theorem C4_set_fields_pairwise (e : EntryState) (n v : String)
    (rest : List (String × String)) :
    (e.hasattr n = false →
      e.set_fields ((n, v) :: rest) = (e, some (.attributeError e.kind n))) ∧
    (e.hasattr n = true →
      e.set_fields ((n, v) :: rest) =
        EntryState.set_fields
          { e.setattr n v with modifiedFields := insert n e.modifiedFields }
          rest) ∧
    (e.hasattr n = true →
      (e.set_fields [(n, v)]).1.fields.lookup n = some v ∧
      n ∈ (e.set_fields [(n, v)]).1.modifiedFields ∧
      (e.set_fields [(n, v)]).2 = none) ∧
    ((EntryState.set_fields
        { kind := "myMod.Token", tid := none, component := none,
          fields := [("a", "0"), ("b", "0")], modifiedFields := ∅, pack := none }
        [("a", "1"), ("zzz", "2")]).2 =
          some (.attributeError "myMod.Token" "zzz") ∧
     (EntryState.set_fields
        { kind := "myMod.Token", tid := none, component := none,
          fields := [("a", "0"), ("b", "0")], modifiedFields := ∅, pack := none }
        [("a", "1"), ("zzz", "2")]).1.fields.lookup "a" = some "1" ∧
     "a" ∈ (EntryState.set_fields
        { kind := "myMod.Token", tid := none, component := none,
          fields := [("a", "0"), ("b", "0")], modifiedFields := ∅, pack := none }
        [("a", "1"), ("zzz", "2")]).1.modifiedFields ∧
     "zzz" ∉ (EntryState.set_fields
        { kind := "myMod.Token", tid := none, component := none,
          fields := [("a", "0"), ("b", "0")], modifiedFields := ∅, pack := none }
        [("a", "1"), ("zzz", "2")]).1.modifiedFields) := by
  refine ⟨?_, ?_, ?_, by decide⟩
  · intro h; simp [EntryState.set_fields, h]
  · intro h; simp [EntryState.set_fields, h]
  · intro h
    simp [EntryState.set_fields, h, EntryState.setattr]

/-- C4 witness: the per-pair behavior at a concrete entry. -/
theorem C4_set_fields_pairwise_witness :
    (EntryState.set_fields
        { kind := "myMod.Token", tid := none, component := none,
          fields := [("a", "0")], modifiedFields := ∅, pack := none }
        [("zzz", "2")]) =
      ({ kind := "myMod.Token", tid := none, component := none,
         fields := [("a", "0")], modifiedFields := ∅, pack := none },
       some (.attributeError "myMod.Token" "zzz")) ∧
    (EntryState.set_fields
        { kind := "myMod.Token", tid := none, component := none,
          fields := [("a", "0")], modifiedFields := ∅, pack := none }
        [("a", "1")]).1.fields.lookup "a" = some "1" :=
  ⟨(C4_set_fields_pairwise
      { kind := "myMod.Token", tid := none, component := none,
        fields := [("a", "0")], modifiedFields := ∅, pack := none }
      "zzz" "2" []).1 (by decide),
   ((C4_set_fields_pairwise
      { kind := "myMod.Token", tid := none, component := none,
        fields := [("a", "0")], modifiedFields := ∅, pack := none }
      "a" "1" []).2.2.1 (by decide)).1⟩

/-- C8: entry construction invokes the container's validation
synchronously; when validation rejects, construction fails with the
validation error and no entry value is produced; when it accepts, the
constructed entry records the container back-reference. -/
theorem C8_init_validates (c : EntryContainer) (k : String) :
    (c.validate k = false → EntryState.init c k = .error .validationError) ∧
    (c.validate k = true →
      EntryState.init c k =
        .ok { kind := k, tid := none, component := none, fields := [],
              modifiedFields := ∅, pack := some c }) := by
  constructor <;> intro h <;> simp [EntryState.init, h]

/-- C8 witness: a rejecting and an accepting concrete container. -/
theorem C8_init_validates_witness :
    EntryState.init ⟨fun _ => false, fun _ => none⟩ "pkg.Token" =
      .error .validationError ∧
    EntryState.init ⟨fun _ => true, fun _ => none⟩ "pkg.Token" =
      .ok { kind := "pkg.Token", tid := none, component := none, fields := [],
            modifiedFields := ∅,
            pack := some ⟨fun _ => true, fun _ => none⟩ } :=
  ⟨(C8_init_validates ⟨fun _ => false, fun _ => none⟩ "pkg.Token").1 rfl,
   (C8_init_validates ⟨fun _ => true, fun _ => none⟩ "pkg.Token").2 rfl⟩

/-- C6: `add_member`/`add_members` type-check a candidate against the
group's member kind before storing; on mismatch the call fails with the
member-type error carrying both the expected kind and the actual kind
(with no member stored), and on success only the candidate's `tid` is
inserted into `members`, never the object. -/
theorem C6_add_member_typecheck (inst : String → String → Bool)
    (g : GroupState) (m : EntryV) (rest : List EntryV) :
    (inst m.kind g.memberType = false →
      g.add_member inst m =
        (g, some (.typeError g.kind g.memberType m.kind)) ∧
      g.add_members inst (m :: rest) =
        (g, some (.typeError g.kind g.memberType m.kind))) ∧
    (inst m.kind g.memberType = true →
      g.add_member inst m =
        ({ g with members := insert m.tid g.members }, none) ∧
      g.add_members inst (m :: rest) =
        GroupState.add_members inst
          { g with members := insert m.tid g.members } rest) := by
  constructor <;> intro h <;>
    simp [GroupState.add_member, GroupState.add_members, h]

/-- C6 witness: a mismatching and a matching concrete candidate. -/
theorem C6_add_member_typecheck_witness :
    GroupState.add_member (fun a b => a == b)
        ⟨"pkg.Group", "pkg.Token", ∅, none⟩ ⟨"pkg.Sent", "s1"⟩ =
      (⟨"pkg.Group", "pkg.Token", ∅, none⟩,
       some (.typeError "pkg.Group" "pkg.Token" "pkg.Sent")) ∧
    GroupState.add_member (fun a b => a == b)
        ⟨"pkg.Group", "pkg.Token", ∅, none⟩ ⟨"pkg.Token", "t1"⟩ =
      (⟨"pkg.Group", "pkg.Token", insert "t1" ∅, none⟩, none) :=
  ⟨((C6_add_member_typecheck (fun a b => a == b)
      ⟨"pkg.Group", "pkg.Token", ∅, none⟩ ⟨"pkg.Sent", "s1"⟩ []).1 (by decide)).1,
   ((C6_add_member_typecheck (fun a b => a == b)
      ⟨"pkg.Group", "pkg.Token", ∅, none⟩ ⟨"pkg.Token", "t1"⟩ []).2 (by decide)).1⟩

/-- C7: adding a valid member whose `tid` is already present leaves the
`members` set unchanged, and in particular unchanged in size (adding is
an idempotent union over identifiers, with no duplicates). -/
theorem C7_add_member_idempotent (inst : String → String → Bool)
    (g : GroupState) (m : EntryV)
    (hinst : inst m.kind g.memberType = true) (hmem : m.tid ∈ g.members) :
    (g.add_member inst m).1.members = g.members ∧
    (g.add_member inst m).1.members.card = g.members.card := by
  have h1 : (g.add_member inst m).1.members = insert m.tid g.members := by
    simp [GroupState.add_member, GroupState.add_members, hinst]
  constructor <;> rw [h1, Finset.insert_eq_self.mpr hmem]

/-- C7 witness: re-adding a concrete member already in the group. -/
theorem C7_add_member_idempotent_witness :
    (GroupState.add_member (fun a b => a == b)
        ⟨"pkg.Group", "pkg.Token", insert "t1" ∅, none⟩
        ⟨"pkg.Token", "t1"⟩).1.members =
      insert "t1" ∅ :=
  (C7_add_member_idempotent (fun a b => a == b)
    ⟨"pkg.Group", "pkg.Token", insert "t1" ∅, none⟩ ⟨"pkg.Token", "t1"⟩
    (by decide) (by decide)).1

/-- C5: `get_members` on a group without a live container fails with the
detached-group error; on an attached group it returns exactly the set of
entries obtained by resolving each stored member identifier through the
container's `get_entry` — an empty attached group yields the empty set,
and a group holding three distinct resolvable member identifiers yields
exactly the three resolved entries. -/
theorem C5_get_members_resolves (g : GroupState) (c : EntryContainer)
    (t1 t2 t3 : String) (e1 e2 e3 : EntryV) :
    (g.pack = none → g.get_members = .error .valueError) ∧
    (g.pack = some c → g.members = ∅ → g.get_members = .ok ∅) ∧
    (g.pack = some c → (∀ m ∈ g.members, ∃ e, c.getEntry m = some e) →
      ∃ s, g.get_members = .ok s ∧
        ∀ e, e ∈ s ↔ ∃ m ∈ g.members, c.getEntry m = some e) ∧
    (g.pack = some c → t1 ≠ t2 → t1 ≠ t3 → t2 ≠ t3 →
      g.members = {t1, t2, t3} →
      c.getEntry t1 = some e1 → c.getEntry t2 = some e2 →
      c.getEntry t3 = some e3 →
      g.get_members = .ok {e1, e2, e3}) := by
  refine ⟨?_, ?_, fun hp hres => get_members_ok g c hp hres, ?_⟩
  · intro h
    simp [GroupState.get_members, h]
  · intro hp hm
    simp only [GroupState.get_members, hp, hm]
    rw [Finset.sort_empty]
    rfl
  · intro hp _h12 _h13 _h23 hm hg1 hg2 hg3
    have hres : ∀ m ∈ g.members, ∃ e, c.getEntry m = some e := by
      intro m hm'
      rw [hm] at hm'
      rcases Finset.mem_insert.mp hm' with rfl | hm''
      · exact ⟨e1, hg1⟩
      · rcases Finset.mem_insert.mp hm'' with rfl | hm'''
        · exact ⟨e2, hg2⟩
        · rw [Finset.mem_singleton] at hm'''
          subst hm'''
          exact ⟨e3, hg3⟩
    obtain ⟨s, hs, hmem⟩ := get_members_ok g c hp hres
    have hse : s = {e1, e2, e3} := by
      ext e
      rw [hmem, hm]
      simp only [Finset.mem_insert, Finset.mem_singleton]
      constructor
      · rintro ⟨m, hm', hget⟩
        rcases hm' with rfl | rfl | rfl
        · exact Or.inl (Option.some.inj (hget.symm.trans hg1))
        · exact Or.inr (Or.inl (Option.some.inj (hget.symm.trans hg2)))
        · exact Or.inr (Or.inr (Option.some.inj (hget.symm.trans hg3)))
      · rintro (rfl | rfl | rfl)
        · exact ⟨t1, Or.inl rfl, hg1⟩
        · exact ⟨t2, Or.inr (Or.inl rfl), hg2⟩
        · exact ⟨t3, Or.inr (Or.inr rfl), hg3⟩
    rw [hs, hse]

/-- C5 witness: a detached group fails; a concrete attached group with
three distinct members yields exactly the three resolved entries. -/
theorem C5_get_members_resolves_witness :
    GroupState.get_members ⟨"pkg.Group", "pkg.Tok", ∅, none⟩ =
      .error .valueError ∧
    GroupState.get_members
        ⟨"pkg.Group", "pkg.Tok", {"t1", "t2", "t3"}, some packT⟩ =
      .ok {⟨"pkg.Tok", "t1"⟩, ⟨"pkg.Tok", "t2"⟩, ⟨"pkg.Tok", "t3"⟩} :=
  ⟨(C5_get_members_resolves ⟨"pkg.Group", "pkg.Tok", ∅, none⟩ packT
      "t1" "t2" "t3" ⟨"pkg.Tok", "t1"⟩ ⟨"pkg.Tok", "t2"⟩ ⟨"pkg.Tok", "t3"⟩).1 rfl,
   (C5_get_members_resolves
      ⟨"pkg.Group", "pkg.Tok", {"t1", "t2", "t3"}, some packT⟩ packT
      "t1" "t2" "t3" ⟨"pkg.Tok", "t1"⟩ ⟨"pkg.Tok", "t2"⟩
      ⟨"pkg.Tok", "t3"⟩).2.2.2 rfl (by decide) (by decide) (by decide)
      rfl (by decide) (by decide) (by decide)⟩

/-- C2: link equality and hash are computed over the triple
`(concrete kind, resolved parent, resolved child)`: when every endpoint
resolution succeeds, equality compares the kinds and the endpoints
resolved through the container at comparison time, and holds exactly when
the hash keys agree; producing an equality result at all requires the
resolution calls to succeed (a failing resolution propagates as the
comparison's failure); and equality of the stored identifiers alone is
neither sufficient (links with equal kinds and equal stored identifiers
whose resolved parents differ compare `ok false`) nor necessary (links
with distinct stored identifiers whose endpoints resolve to equal entries
compare `ok true`). -/
theorem C2_link_eq_over_resolved (self other : LinkState)
    (sp sc op oc : EntryV) (err : CoreError) (b : Bool) :
    (self.get_parent = .error err →
      LinkState.eq self (some other) = .error err) ∧
    (LinkState.eq self (some other) = .ok b →
      (∃ p, self.get_parent = .ok p) ∧ (∃ q, self.get_child = .ok q) ∧
      (∃ p, other.get_parent = .ok p) ∧ (∃ q, other.get_child = .ok q)) ∧
    (self.get_parent = .ok sp → self.get_child = .ok sc →
     other.get_parent = .ok op → other.get_child = .ok oc →
      LinkState.eq self (some other) =
        .ok (self.kind = other.kind ∧ sp.eq (some op) ∧ sc.eq (some oc)) ∧
      (LinkState.eq self (some other) = .ok true ↔
        self.hashKey = other.hashKey)) ∧
    (⟨"pkg.Link", packA, some "p", some "c"⟩ : LinkState).parentId =
      (⟨"pkg.Link", packB, some "p", some "c"⟩ : LinkState).parentId ∧
    (⟨"pkg.Link", packA, some "p", some "c"⟩ : LinkState).childId =
      (⟨"pkg.Link", packB, some "p", some "c"⟩ : LinkState).childId ∧
    LinkState.eq ⟨"pkg.Link", packA, some "p", some "c"⟩
      (some ⟨"pkg.Link", packB, some "p", some "c"⟩) = .ok false ∧
    (⟨"pkg.Link", packC, some "p1", some "c1"⟩ : LinkState).parentId ≠
      (⟨"pkg.Link", packC, some "p2", some "c2"⟩ : LinkState).parentId ∧
    (⟨"pkg.Link", packC, some "p1", some "c1"⟩ : LinkState).childId ≠
      (⟨"pkg.Link", packC, some "p2", some "c2"⟩ : LinkState).childId ∧
    LinkState.eq ⟨"pkg.Link", packC, some "p1", some "c1"⟩
      (some ⟨"pkg.Link", packC, some "p2", some "c2"⟩) = .ok true := by
  refine ⟨?_, ?_, ?_, rfl, rfl, ?_, by decide, by decide, ?_⟩
  · intro h
    simp only [LinkState.eq, h]
  · intro hb
    simp only [LinkState.eq] at hb
    rcases h1 : self.get_parent with e1 | p1 <;> simp only [h1] at hb
    · exact Except.noConfusion hb
    rcases h2 : self.get_child with e2 | q1 <;> simp only [h2] at hb
    · exact Except.noConfusion hb
    rcases h3 : other.get_parent with e3 | p2 <;> simp only [h3] at hb
    · exact Except.noConfusion hb
    rcases h4 : other.get_child with e4 | q2 <;> simp only [h4] at hb
    · exact Except.noConfusion hb
    exact ⟨⟨p1, rfl⟩, ⟨q1, rfl⟩, ⟨p2, rfl⟩, ⟨q2, rfl⟩⟩
  · intro h1 h2 h3 h4
    constructor
    · simp only [LinkState.eq, h1, h2, h3, h4]
    · simp only [LinkState.eq, LinkState.hashKey, h1, h2, h3, h4,
        Except.ok.injEq, decide_eq_true_eq, Prod.mk.injEq,
        entryV_eq_some_iff]
  · rfl
  · rfl

/-- C2 witness: a link with an unset endpoint fails to compare; a link
with resolvable endpoints compares over the resolved entries. -/
theorem C2_link_eq_over_resolved_witness :
    LinkState.eq ⟨"pkg.Link", packA, none, none⟩
        (some ⟨"pkg.Link", packA, some "p", some "c"⟩) =
      .error (.lookupError "") ∧
    LinkState.eq ⟨"pkg.Link", packA, some "p", some "c"⟩
        (some ⟨"pkg.Link", packA, some "p", some "c"⟩) =
      .ok ((⟨"pkg.Link", packA, some "p", some "c"⟩ : LinkState).kind =
            (⟨"pkg.Link", packA, some "p", some "c"⟩ : LinkState).kind ∧
           EntryV.eq ⟨"pkg.Tok", "pa"⟩ (some ⟨"pkg.Tok", "pa"⟩) ∧
           EntryV.eq ⟨"pkg.Tok", "ca"⟩ (some ⟨"pkg.Tok", "ca"⟩)) :=
  ⟨(C2_link_eq_over_resolved ⟨"pkg.Link", packA, none, none⟩
      ⟨"pkg.Link", packA, some "p", some "c"⟩
      ⟨"pkg.Tok", "pa"⟩ ⟨"pkg.Tok", "ca"⟩ ⟨"pkg.Tok", "pa"⟩ ⟨"pkg.Tok", "ca"⟩
      (.lookupError "") false).1 rfl,
   ((C2_link_eq_over_resolved ⟨"pkg.Link", packA, some "p", some "c"⟩
      ⟨"pkg.Link", packA, some "p", some "c"⟩
      ⟨"pkg.Tok", "pa"⟩ ⟨"pkg.Tok", "ca"⟩ ⟨"pkg.Tok", "pa"⟩ ⟨"pkg.Tok", "ca"⟩
      (.lookupError "") false).2.2.1 rfl rfl rfl rfl).1⟩

/- Sanity checks of the embedding on concrete inputs. -/
example : Span.lt ⟨1, 5⟩ ⟨2, 0⟩ = true := by decide
example : Span.lt ⟨1, 5⟩ ⟨1, 6⟩ = true := by decide
example : EntryV.eq ⟨"K", "1"⟩ (some ⟨"K", "1"⟩) = true := by decide
example : EntryV.eq ⟨"K", "1"⟩ (some ⟨"L", "1"⟩) = false := by decide
example :
    (EntryState.set_tid
      { kind := "pkg.Token", tid := none, component := none, fields := [],
        modifiedFields := ∅, pack := none } "1").tid = some "pkg.Token.1" := by
  decide
